import Mathlib

/-!
# Verification of the DAQ pressure monitor's portable core

A shallow embedding, in Lean 4, of the portable computational core of
`daq_pressure_monitor.py`: the two-point linear calibration transform,
the recording session (`DataRecorder`), the CSV export schema, and the
save/load round trip of pin configurations (`StateManager`).

Python floats are modelled as rationals (`ℚ`), strings as `String`,
and code that can raise an exception returns `Option`.
-/

/-- Calibration data for a sensor pin.  Embeds the `CalibrationData`
dataclass (source lines 56-64), defaults included. -/
structure CalibrationData where
  point1_physical : ℚ := 0
  point1_voltage : ℚ := 0
  point2_physical : ℚ := 1
  point2_voltage : ℚ := 5
  physical_unit : String := "m"
  is_calibrated : Bool := false
deriving DecidableEq, Repr

/-- Configuration for a DAQ pin.  Embeds the `PinConfig` dataclass
(source lines 66-80); the `__post_init__` defaulting of `calibration`
is rendered as a field default. -/
structure PinConfig where
  pin_number : ℤ
  name : String
  pin_type : String
  function : String
  is_analog_input : Bool := false
  is_active : Bool := false
  color : String := "#1f77b4"
  calibration : CalibrationData := {}
deriving DecidableEq, Repr

/-- The two-point linear calibration transform.  Embeds
`PinNameEditor.apply_calibration` (source lines 1124-1139): identity
when not calibrated, saturation to `point1_physical` when the voltage
difference is below `1e-6` in absolute value, otherwise the linear map
`slope * voltage + intercept`. -/
def apply_calibration (voltage : ℚ) (calibration : CalibrationData) : ℚ :=
  if ¬ calibration.is_calibrated then
    voltage
  else
    let voltage_diff := calibration.point2_voltage - calibration.point1_voltage
    if |voltage_diff| < 1 / 1000000 then
      calibration.point1_physical
    else
      let slope := (calibration.point2_physical - calibration.point1_physical) / voltage_diff
      let intercept := calibration.point1_physical - slope * calibration.point1_voltage
      slope * voltage + intercept

/-- The example calibration of the spec: physical points `0.0` and `1.0`
at voltages `0.0` and `5.0`, unit `"m"`, enabled. -/
def exampleCalibration : CalibrationData :=
  { point1_physical := 0, point1_voltage := 0
    point2_physical := 1, point2_voltage := 5
    physical_unit := "m", is_calibrated := true }

/-- An enabled calibration whose two voltage points are distinct but
closer than `1e-6`: voltages `0` and `1e-7`, physical values `0` and `1`. -/
def degenerateCalibration : CalibrationData :=
  { point1_physical := 0, point1_voltage := 0
    point2_physical := 1, point2_voltage := 1 / 10000000
    physical_unit := "m", is_calibrated := true }

/-- Unfolding lemma: on the non-degenerate enabled branch,
`apply_calibration` is the two-point linear map. -/
theorem apply_calibration_of_far (v : ℚ) (c : CalibrationData)
    (henabled : c.is_calibrated = true)
    (hfar : 1 / 1000000 ≤ |c.point2_voltage - c.point1_voltage|) :
    apply_calibration v c =
      (c.point2_physical - c.point1_physical) / (c.point2_voltage - c.point1_voltage) * v +
        (c.point1_physical -
          (c.point2_physical - c.point1_physical) / (c.point2_voltage - c.point1_voltage) *
            c.point1_voltage) := by
  rw [apply_calibration, if_neg (by simp [henabled])]
  exact if_neg (not_lt.mpr hfar)

/-- C1: with the enabled flag false, `apply_calibration` is the identity;
with the flag true and `|voltage_2 - voltage_1| ≥ 1e-6` it is the linear
map with slope `(physical_2 - physical_1) / (voltage_2 - voltage_1)` and
intercept `physical_1 - slope * voltage_1`; and on the example
calibration with points `(0, 0 V)` and `(1, 5 V)`, `apply_calibration`
sends `2.5` to `0.5`. -/
theorem apply_calibration_spec (v : ℚ) (c : CalibrationData) :
    (c.is_calibrated = false → apply_calibration v c = v) ∧
    (c.is_calibrated = true → 1 / 1000000 ≤ |c.point2_voltage - c.point1_voltage| →
      apply_calibration v c =
        (c.point2_physical - c.point1_physical) / (c.point2_voltage - c.point1_voltage) * v +
          (c.point1_physical -
            (c.point2_physical - c.point1_physical) / (c.point2_voltage - c.point1_voltage) *
              c.point1_voltage)) ∧
    apply_calibration (5 / 2) exampleCalibration = 1 / 2 := by
  refine ⟨fun h => ?_, fun h hdiff => ?_, by norm_num [apply_calibration, exampleCalibration]⟩
  · simp [apply_calibration, h]
  · exact apply_calibration_of_far v c h hdiff

/-- Witness for C1 at the spec's example calibration. -/
theorem apply_calibration_spec_witness :
    apply_calibration (5 / 2) exampleCalibration = 1 / 2 ∧
    apply_calibration 3 { exampleCalibration with is_calibrated := false } = 3 := by
  refine ⟨(apply_calibration_spec (5 / 2) exampleCalibration).2.2, ?_⟩
  exact (apply_calibration_spec 3 { exampleCalibration with is_calibrated := false }).1 rfl

/-- C2: for an enabled calibration whose voltage points differ by less
than `1e-6` in absolute value, `apply_calibration` returns
`point1_physical` at every queried voltage; the near-zero division is
never performed, and the function is total (no exception). -/
theorem apply_calibration_degenerate (v : ℚ) (c : CalibrationData)
    (henabled : c.is_calibrated = true)
    (hclose : |c.point2_voltage - c.point1_voltage| < 1 / 1000000) :
    apply_calibration v c = c.point1_physical := by
  rw [apply_calibration, if_neg (by simp [henabled])]
  exact if_pos hclose

/-- Witness for C2: equal voltage points saturate to `point1_physical`. -/
theorem apply_calibration_degenerate_witness :
    apply_calibration 42 { exampleCalibration with point2_voltage := 0 } =
      ({ exampleCalibration with point2_voltage := 0 } : CalibrationData).point1_physical :=
  apply_calibration_degenerate 42 _ rfl (by norm_num [exampleCalibration])

/-- Counterexample to C3 as stated: the degenerate calibration has
distinct voltage points (`0` and `1e-7`) and is enabled, yet
`apply_calibration` at `voltage_2` yields `0 = physical_1`, not
`physical_2 = 1`, because the points are closer than the `1e-6` guard. -/
theorem apply_calibration_anchor_counterexample :
    degenerateCalibration.point1_voltage ≠ degenerateCalibration.point2_voltage ∧
    degenerateCalibration.is_calibrated = true ∧
    apply_calibration degenerateCalibration.point2_voltage degenerateCalibration ≠
      degenerateCalibration.point2_physical := by
  refine ⟨by norm_num [degenerateCalibration], rfl, ?_⟩
  norm_num [apply_calibration, degenerateCalibration, abs_of_pos]

/-- C3 (amended): for an enabled calibration whose voltage points differ
by at least `1e-6` in absolute value, `apply_calibration` maps
`voltage_1` to `physical_1` and `voltage_2` to `physical_2` exactly. -/
theorem apply_calibration_anchors (c : CalibrationData)
    (henabled : c.is_calibrated = true)
    (hfar : 1 / 1000000 ≤ |c.point2_voltage - c.point1_voltage|) :
    apply_calibration c.point1_voltage c = c.point1_physical ∧
    apply_calibration c.point2_voltage c = c.point2_physical := by
  have hne : c.point2_voltage - c.point1_voltage ≠ 0 := by
    intro h
    rw [h] at hfar
    norm_num at hfar
  have h1 := apply_calibration_of_far c.point1_voltage c henabled hfar
  have h2 := apply_calibration_of_far c.point2_voltage c henabled hfar
  constructor
  · rw [h1]; ring
  · rw [h2]
    field_simp
    ring

/-- Witness for C3 (amended) at the example calibration. -/
theorem apply_calibration_anchors_witness :
    apply_calibration exampleCalibration.point1_voltage exampleCalibration =
      exampleCalibration.point1_physical ∧
    apply_calibration exampleCalibration.point2_voltage exampleCalibration =
      exampleCalibration.point2_physical :=
  apply_calibration_anchors exampleCalibration rfl (by norm_num [exampleCalibration])

/-- One pin's serialized configuration record as written by
`StateManager.save_state` (source lines 97-113): the `pin_data` dict,
with its nested `calibration` dict flattened into named fields. -/
structure SavedPinData where
  pin_number : ℤ
  name : String
  pin_type : String
  function : String
  is_analog_input : Bool
  cal_point1_physical : ℚ
  cal_point1_voltage : ℚ
  cal_point2_physical : ℚ
  cal_point2_voltage : ℚ
  cal_physical_unit : String
  cal_is_calibrated : Bool
deriving DecidableEq, Repr

/-- The serialization step of `StateManager.save_state` (source lines
88-123): the list of `pin_data` records placed under `"pin_configs"`.
The surrounding JSON file write (and its exception handler returning
`False`) is I/O and is not part of the round-trip data path. -/
def StateManager.save_state (pin_configs : List PinConfig) : List SavedPinData :=
  pin_configs.map fun pin_config =>
    { pin_number := pin_config.pin_number
      name := pin_config.name
      pin_type := pin_config.pin_type
      function := pin_config.function
      is_analog_input := pin_config.is_analog_input
      cal_point1_physical := pin_config.calibration.point1_physical
      cal_point1_voltage := pin_config.calibration.point1_voltage
      cal_point2_physical := pin_config.calibration.point2_physical
      cal_point2_voltage := pin_config.calibration.point2_voltage
      cal_physical_unit := pin_config.calibration.physical_unit
      cal_is_calibrated := pin_config.calibration.is_calibrated }

/-- The deserialization step of `StateManager.load_state` (source lines
125-161): rebuilds a `CalibrationData` and a `PinConfig` from each
saved record; `is_active` and `color` are not read back, so they take
the dataclass defaults. -/
def StateManager.load_state (state_data : List SavedPinData) : List PinConfig :=
  state_data.map fun pin_data =>
    { pin_number := pin_data.pin_number
      name := pin_data.name
      pin_type := pin_data.pin_type
      function := pin_data.function
      is_analog_input := pin_data.is_analog_input
      calibration :=
        { point1_physical := pin_data.cal_point1_physical
          point1_voltage := pin_data.cal_point1_voltage
          point2_physical := pin_data.cal_point2_physical
          point2_voltage := pin_data.cal_point2_voltage
          physical_unit := pin_data.cal_physical_unit
          is_calibrated := pin_data.cal_is_calibrated } }

/-- C8: saving a list of pin configurations and loading it back yields
pin-for-pin identical calibrations: both physical values, both voltage
values, the unit label and the enabled flag are all preserved exactly. -/
theorem save_load_roundtrip_calibration (pin_configs : List PinConfig) :
    (StateManager.load_state (StateManager.save_state pin_configs)).map
        (fun p => p.calibration) =
      pin_configs.map (fun p => p.calibration) := by
  induction pin_configs with
  | nil => rfl
  | cons p ps ih =>
    simp only [StateManager.save_state, StateManager.load_state, List.map_cons, List.map_map] at *
    simp [ih]

/-- One recorded sample: the `data_point` dict built by
`DataRecorder.add_data_point` (source lines 556-562). -/
structure DataPoint where
  timestamp : ℚ
  relative_time : ℚ
  pin_number : ℤ
  voltage : ℚ
  calibrated_value : ℚ
deriving DecidableEq, Repr

/-- State of the CSV data recorder: the fields set by
`DataRecorder.__init__` (source lines 529-533) together with
`active_pin_configs` (line 546), an insertion-ordered pin-to-config
dictionary modelled as an association list. -/
structure DataRecorder where
  is_recording : Bool := false
  recorded_data : List DataPoint := []
  recording_start_time : Option ℚ := none
  csv_filename : Option String := none
  active_pin_configs : List (ℤ × PinConfig) := []
deriving DecidableEq, Repr

/-- `DataRecorder.start_recording` (source lines 535-549).  `now` stands
for `time.time()` and `stamp` for the formatted `datetime.now()` used in
the generated filename.  The dict comprehension looks each active pin up
in `pin_configs` with `next(...)`, which raises `StopIteration` when a
pin has no configuration; that exception is modelled by `none`. -/
def DataRecorder.start_recording (r : DataRecorder) (active_pins : List ℤ)
    (pin_configs : List PinConfig) (now : ℚ) (stamp : String) :
    Option (DataRecorder × String) :=
  let csv_filename := "daq_recording_" ++ stamp ++ ".csv"
  (active_pins.mapM fun pin =>
      (pin_configs.find? fun p => p.pin_number == pin).map fun p => (pin, p)).map
    fun active_pin_configs =>
      ({ r with
          is_recording := true
          recorded_data := []
          recording_start_time := some now
          csv_filename := some csv_filename
          active_pin_configs := active_pin_configs },
        csv_filename)

/-- `DataRecorder.add_data_point` (source lines 551-563): a no-op unless
recording; otherwise appends one sample whose `relative_time` is the
timestamp minus the recording start time.  Reading an unset start time
(a `TypeError` in Python, unreachable through the recorder's API) is
modelled by `none`. -/
def DataRecorder.add_data_point (r : DataRecorder) (pin_number : ℤ)
    (voltage calibrated_value timestamp : ℚ) : Option DataRecorder :=
  if r.is_recording then
    r.recording_start_time.map fun start =>
      { r with
          recorded_data := r.recorded_data ++
            [{ timestamp := timestamp
               relative_time := timestamp - start
               pin_number := pin_number
               voltage := voltage
               calibrated_value := calibrated_value }] }
  else
    some r

/-- `DataRecorder.stop_recording_and_save` (source lines 565-593).
`dialogResult` is the filename chosen in the save dialog (`none` when
the user cancels) and `writeOk` tells whether `save_to_csv` succeeds or
raises.  Returns the updated recorder and the saved filename, `none`
standing for Python's `None` result. -/
def DataRecorder.stop_recording_and_save (r : DataRecorder)
    (dialogResult : Option String) (writeOk : Bool) :
    DataRecorder × Option String :=
  if ¬ r.is_recording then
    (r, none)
  else
    let r2 : DataRecorder := { r with is_recording := false }
    if r2.recorded_data.isEmpty then
      (r2, none)
    else
      match dialogResult with
      | none => (r2, none)
      | some filename => if writeOk then (r2, some filename) else (r2, none)

/-- Lexicographic (code-point) order on character lists, the order
Python's `sorted` uses on strings. -/
def charListLt : List Char → List Char → Bool
  | _, [] => false
  | [], _ :: _ => true
  | a :: as, b :: bs => if a < b then true else if b < a then false else charListLt as bs

/-- Python's `<` on strings. -/
def strLt (a b : String) : Bool := charListLt a.data b.data

/-- Insert a string into an already sorted list, keeping it sorted. -/
def orderedInsertStr (u : String) : List String → List String
  | [] => [u]
  | v :: vs => if strLt v u then v :: orderedInsertStr u vs else u :: v :: vs

/-- Python's `sorted` on a list of strings (insertion sort). -/
def sortStrings : List String → List String
  | [] => []
  | u :: us => orderedInsertStr u (sortStrings us)

/-- Fixed-point decimal rendering with `d` fractional digits: the model
of Python's `f"{x:.6f}"` / `f"{x:.3f}"` over `ℚ` (rounding half up
rather than the float formatter's binary half-even; no claim depends on
tie digits). -/
def fmtFixed (d : ℕ) (x : ℚ) : String :=
  let scaled : ℤ := Int.fdiv (x * (10 : ℚ) ^ d + 1 / 2).num (x * (10 : ℚ) ^ d + 1 / 2).den
  let sign := if scaled < 0 then "-" else ""
  let n := scaled.natAbs
  let frac := toString (n % 10 ^ d)
  sign ++ toString (n / 10 ^ d) ++ "." ++
    String.mk (List.replicate (d - frac.length) '0') ++ frac

/-- The sorted set of physical units among the calibrated active pins:
the `units` set of `DataRecorder.save_to_csv` (source lines 620-625),
iterated in sorted order. -/
def DataRecorder.sortedUnits (r : DataRecorder) : List String :=
  sortStrings ((r.active_pin_configs.filterMap fun pc =>
    if pc.2.calibration.is_calibrated then some pc.2.calibration.physical_unit
    else none).dedup)

/-- The column-header row of `DataRecorder.save_to_csv` (source lines
616-629): five base columns, one calibrated-value column per distinct
unit, and a generic calibrated column when no active pin is calibrated. -/
def DataRecorder.csvHeaders (r : DataRecorder) : List String :=
  let headers := ["Timestamp (Unix)", "Relative Time (s)", "Pin Number", "Sensor Name",
    "Voltage (V)"]
  let units := r.sortedUnits
  if units.isEmpty then
    headers ++ ["Calibrated Value"]
  else
    headers ++ units.map fun unit => "Calibrated Value (" ++ unit ++ ")"

/-- One data row of `DataRecorder.save_to_csv` (source lines 634-660).
The dict access `self.active_pin_configs[data_point['pin_number']]`
raises `KeyError` for an unknown pin; that is modelled by `none`. -/
def DataRecorder.csvRow (r : DataRecorder) (data_point : DataPoint) :
    Option (List String) :=
  (r.active_pin_configs.find? fun pc => pc.1 == data_point.pin_number).map fun pc =>
    let pin_config := pc.2
    let row := [fmtFixed 6 data_point.timestamp, fmtFixed 3 data_point.relative_time,
      toString data_point.pin_number, pin_config.name, fmtFixed 6 data_point.voltage]
    let units := r.sortedUnits
    if pin_config.calibration.is_calibrated then
      row ++ units.map fun unit =>
        if unit = pin_config.calibration.physical_unit then
          fmtFixed 6 data_point.calibrated_value
        else ""
    else
      if units.isEmpty then row ++ [fmtFixed 6 data_point.voltage]
      else row ++ List.replicate units.length ""

/-- The tabular body of `DataRecorder.save_to_csv`: one row per recorded
data point, in recording order (the `for data_point in
self.recorded_data` loop, source lines 634-660). -/
def csvRowsAux (r : DataRecorder) : List DataPoint → Option (List (List String))
  | [] => some []
  | dp :: rest =>
    match r.csvRow dp, csvRowsAux r rest with
    | some row, some rows => some (row :: rows)
    | _, _ => none

/-- All data rows of the export of recorder state `r`. -/
def DataRecorder.csvDataRows (r : DataRecorder) : Option (List (List String)) :=
  csvRowsAux r r.recorded_data

/-- The monitoring state of one pin button, as read by
`DAQMonitorApp.start_recording` (source lines 1791-1792). -/
structure PinButton where
  is_monitoring : Bool
  pin_config : PinConfig
deriving DecidableEq, Repr

/-- The `active_pins` list comprehension of `DAQMonitorApp.start_recording`
(source lines 1791-1792): monitored analog-input pins. -/
def activePins (pin_buttons : List (ℤ × PinButton)) : List ℤ :=
  (pin_buttons.filter fun pb =>
    pb.2.is_monitoring && pb.2.pin_config.is_analog_input).map fun pb => pb.1

/-- `DAQMonitorApp.start_recording` (source lines 1788-1800), UI styling
elided: with no active analog pin it warns and returns without touching
the recorder; otherwise it delegates to `DataRecorder.start_recording`.
The outer `none` models an uncaught exception inside the delegate. -/
def appStartRecording (r : DataRecorder) (pin_buttons : List (ℤ × PinButton))
    (pin_configs : List PinConfig) (now : ℚ) (stamp : String) :
    Option (DataRecorder × Option String) :=
  let active_pins := activePins pin_buttons
  if active_pins.isEmpty then
    some (r, none)
  else
    (r.start_recording active_pins pin_configs now stamp).map fun res =>
      (res.1, some res.2)

/-- `DAQMonitorApp.stop_recording` (source lines 1825-1831), UI styling
elided: returns unchanged unless recording, else stops and saves. -/
def appStopRecording (r : DataRecorder) (dialogResult : Option String)
    (writeOk : Bool) : DataRecorder × Option String :=
  if ¬ r.is_recording then (r, none)
  else r.stop_recording_and_save dialogResult writeOk

/-- `DAQMonitorApp.toggle_recording` (source lines 1781-1786): start when
idle, stop when recording. -/
def toggleRecording (r : DataRecorder) (pin_buttons : List (ℤ × PinButton))
    (pin_configs : List PinConfig) (now : ℚ) (stamp : String)
    (dialogResult : Option String) (writeOk : Bool) :
    Option (DataRecorder × Option String) :=
  if ¬ r.is_recording then
    appStartRecording r pin_buttons pin_configs now stamp
  else
    some (appStopRecording r dialogResult writeOk)

/-- C4: starting a recording with no active analog channel fails — no
filename is produced — and the recorder is returned exactly as it was:
not recording, no data buffer, no start time, no session. -/
theorem start_recording_empty_channels (r : DataRecorder)
    (pin_buttons : List (ℤ × PinButton)) (pin_configs : List PinConfig)
    (now : ℚ) (stamp : String) (hempty : activePins pin_buttons = []) :
    appStartRecording r pin_buttons pin_configs now stamp = some (r, none) := by
  simp [appStartRecording, hempty]

/-- C7: when recording with data, a failed CSV write yields the `none`
result — distinct from the `some filename` of a successful save — and
leaves the recorded samples untouched, so the same data can be exported
again. -/
theorem export_failure_preserves_data (r : DataRecorder) (fname : String)
    (hrec : r.is_recording = true) (hdata : r.recorded_data ≠ []) :
    (r.stop_recording_and_save (some fname) false).2 = none ∧
    (r.stop_recording_and_save (some fname) false).1.recorded_data = r.recorded_data ∧
    (r.stop_recording_and_save (some fname) true).2 = some fname := by
  have hne : r.recorded_data.isEmpty = false := by
    simpa [List.isEmpty_iff] using hdata
  simp [DataRecorder.stop_recording_and_save, hrec, hne]

/-- C9: toggling while a session is recording never starts a new
session: the toggle takes the stop path, and the resulting recorder
keeps the session's accumulated samples and start time — no fresh empty
session replaces them. -/
theorem no_start_while_recording (r : DataRecorder)
    (pin_buttons : List (ℤ × PinButton)) (pin_configs : List PinConfig)
    (now : ℚ) (stamp : String) (dialogResult : Option String) (writeOk : Bool)
    (hrec : r.is_recording = true) :
    toggleRecording r pin_buttons pin_configs now stamp dialogResult writeOk =
      some (appStopRecording r dialogResult writeOk) ∧
    ∀ r2 res,
      toggleRecording r pin_buttons pin_configs now stamp dialogResult writeOk =
        some (r2, res) →
      r2.recorded_data = r.recorded_data ∧
      r2.recording_start_time = r.recording_start_time ∧
      r2.is_recording = false := by
  constructor
  · simp [toggleRecording, hrec]
  · intro r2 res htoggle
    rw [toggleRecording, if_neg (by simp [hrec])] at htoggle
    rw [appStopRecording, if_neg (by simp [hrec])] at htoggle
    rw [DataRecorder.stop_recording_and_save, if_neg (by simp [hrec])] at htoggle
    simp only [Option.some_inj] at htoggle
    split at htoggle
    · cases htoggle
      exact ⟨rfl, rfl, rfl⟩
    · split at htoggle
      · cases htoggle
        exact ⟨rfl, rfl, rfl⟩
      · split at htoggle
        · cases htoggle
          exact ⟨rfl, rfl, rfl⟩
        · cases htoggle
          exact ⟨rfl, rfl, rfl⟩

/-- C10: stopping a recording that holds no samples deactivates the
session and returns no filename, independently of any dialog choice or
write outcome — no export is attempted for the empty session. -/
theorem stop_empty_session (r : DataRecorder) (dialogResult : Option String)
    (writeOk : Bool) (hrec : r.is_recording = true)
    (hempty : r.recorded_data = []) :
    r.stop_recording_and_save dialogResult writeOk =
      ({ r with is_recording := false }, none) := by
  simp [DataRecorder.stop_recording_and_save, hrec, hempty]

/-- A psi-calibrated analog-input pin. -/
def pinConfig1 : PinConfig :=
  { pin_number := 1, name := "Pressure", pin_type := "analog", function := "AI0"
    is_analog_input := true
    calibration := { exampleCalibration with physical_unit := "psi" } }

/-- An uncalibrated analog-input pin. -/
def pinConfig2 : PinConfig :=
  { pin_number := 2, name := "Spare", pin_type := "analog", function := "AI1"
    is_analog_input := true }

/-- A freshly constructed recorder (the `__init__` state). -/
def idleRecorder : DataRecorder := {}

/-- A recording session over pins 1 and 2 started at time 100, holding
three samples per pin. -/
def recRecorder : DataRecorder :=
  { is_recording := true
    recorded_data :=
      [{ timestamp := 101, relative_time := 1, pin_number := 1, voltage := 1,
         calibrated_value := 1 / 5 },
       { timestamp := 101, relative_time := 1, pin_number := 2, voltage := 2,
         calibrated_value := 2 },
       { timestamp := 102, relative_time := 2, pin_number := 1, voltage := 3,
         calibrated_value := 3 / 5 },
       { timestamp := 102, relative_time := 2, pin_number := 2, voltage := 4,
         calibrated_value := 4 },
       { timestamp := 103, relative_time := 3, pin_number := 1, voltage := 5,
         calibrated_value := 1 },
       { timestamp := 103, relative_time := 3, pin_number := 2, voltage := 1,
         calibrated_value := 1 }]
    recording_start_time := some 100
    csv_filename := some "daq_recording_20240101_120000.csv"
    active_pin_configs := [(1, pinConfig1), (2, pinConfig2)] }

/-- A recording session with no samples yet. -/
def emptyActiveRecorder : DataRecorder :=
  { is_recording := true, recording_start_time := some 100 }

/-- Witness for C4: one idle pin button, nothing active. -/
theorem start_recording_empty_channels_witness :
    appStartRecording idleRecorder
        [(3, { is_monitoring := false, pin_config := pinConfig1 })] [pinConfig1] 0
        "20240101_120000" =
      some (idleRecorder, none) :=
  start_recording_empty_channels idleRecorder
    [(3, { is_monitoring := false, pin_config := pinConfig1 })] [pinConfig1] 0
    "20240101_120000" rfl

/-- Witness for C7 on the six-sample session. -/
theorem export_failure_preserves_data_witness :
    (recRecorder.stop_recording_and_save (some "out.csv") false).2 = none ∧
    (recRecorder.stop_recording_and_save (some "out.csv") false).1.recorded_data =
      recRecorder.recorded_data ∧
    (recRecorder.stop_recording_and_save (some "out.csv") true).2 = some "out.csv" :=
  export_failure_preserves_data recRecorder "out.csv" rfl (by simp [recRecorder])

/-- Witness for C9 on the six-sample session. -/
theorem no_start_while_recording_witness :
    toggleRecording recRecorder [] [] 0 "20240101_120000" none true =
      some (appStopRecording recRecorder none true) ∧
    ∀ r2 res,
      toggleRecording recRecorder [] [] 0 "20240101_120000" none true =
        some (r2, res) →
      r2.recorded_data = recRecorder.recorded_data ∧
      r2.recording_start_time = recRecorder.recording_start_time ∧
      r2.is_recording = false :=
  no_start_while_recording recRecorder [] [] 0 "20240101_120000" none true rfl

/-- Witness for C10 on the sampleless session. -/
theorem stop_empty_session_witness :
    emptyActiveRecorder.stop_recording_and_save none true =
      ({ emptyActiveRecorder with is_recording := false }, none) :=
  stop_empty_session emptyActiveRecorder none true rfl rfl

/-- Each successful export has exactly one data row per recorded data
point. -/
theorem csvRowsAux_length (r : DataRecorder) :
    ∀ (l : List DataPoint) (rows : List (List String)),
      csvRowsAux r l = some rows → rows.length = l.length := by
  intro l
  induction l with
  | nil =>
    intro rows h
    rw [csvRowsAux] at h
    cases h
    rfl
  | cons dp rest ih =>
    intro rows h
    rw [csvRowsAux] at h
    cases hrow : r.csvRow dp with
    | none => rw [hrow] at h; exact absurd h (by simp)
    | some row =>
      cases haux : csvRowsAux r rest with
      | none => rw [hrow, haux] at h; exact absurd h (by simp)
      | some rs =>
        rw [hrow, haux] at h
        cases h
        simp [ih rs haux]

/-- C5: adding a sample is a no-op when no session is active; when a
session is active it appends exactly one sample whose relative time is
the timestamp minus the session start time; and a successful export
writes exactly one data row per recorded sample. -/
theorem add_sample_spec (r : DataRecorder) (pin : ℤ)
    (voltage calibrated timestamp t0 : ℚ) :
    (r.is_recording = false →
      r.add_data_point pin voltage calibrated timestamp = some r) ∧
    (r.is_recording = true → r.recording_start_time = some t0 →
      r.add_data_point pin voltage calibrated timestamp =
        some { r with recorded_data := r.recorded_data ++
          [{ timestamp := timestamp, relative_time := timestamp - t0,
             pin_number := pin, voltage := voltage,
             calibrated_value := calibrated }] }) ∧
    (∀ rows, r.csvDataRows = some rows → rows.length = r.recorded_data.length) := by
  refine ⟨fun h => ?_, fun h hstart => ?_, fun rows h => csvRowsAux_length r _ rows h⟩
  · simp [DataRecorder.add_data_point, h]
  · simp [DataRecorder.add_data_point, h, hstart]

/-- Witness for C5: the six-sample two-channel session appends a sample
with relative time `103 - 100` and exports exactly six data rows. -/
theorem add_sample_spec_witness :
    recRecorder.add_data_point 1 (5 / 2) (1 / 2) 103 =
      some { recRecorder with recorded_data := recRecorder.recorded_data ++
        [{ timestamp := 103, relative_time := 103 - 100, pin_number := 1,
           voltage := 5 / 2, calibrated_value := 1 / 2 }] } ∧
    recRecorder.csvDataRows = some (recRecorder.csvDataRows.getD []) ∧
    (recRecorder.csvDataRows.getD []).length = 6 ∧
    idleRecorder.add_data_point 1 (5 / 2) (1 / 2) 103 = some idleRecorder := by
  have hsome : recRecorder.csvDataRows = some (recRecorder.csvDataRows.getD []) := rfl
  refine ⟨(add_sample_spec recRecorder 1 (5 / 2) (1 / 2) 103 100).2.1 rfl rfl, hsome, ?_, ?_⟩
  · have hlen :=
      (add_sample_spec recRecorder 1 (5 / 2) (1 / 2) 103 100).2.2
        (recRecorder.csvDataRows.getD []) hsome
    rw [hlen]
    rfl
  · exact (add_sample_spec idleRecorder 1 (5 / 2) (1 / 2) 103 100).1 rfl

/-- Inserting into a sorted list permutes to consing. -/
theorem perm_orderedInsertStr (u : String) (l : List String) :
    List.Perm (orderedInsertStr u l) (u :: l) := by
  induction l with
  | nil => exact List.Perm.refl _
  | cons v vs ih =>
    rw [orderedInsertStr]
    split
    · exact (ih.cons v).trans (List.Perm.swap u v vs)
    · exact List.Perm.refl _

/-- Sorting permutes the list. -/
theorem perm_sortStrings (l : List String) : List.Perm (sortStrings l) l := by
  induction l with
  | nil => exact List.Perm.refl _
  | cons u us ih => exact (perm_orderedInsertStr u (sortStrings us)).trans (ih.cons u)

/-- The unit columns are exactly the units of the calibrated active
pins. -/
theorem mem_sortedUnits (r : DataRecorder) (u : String) :
    u ∈ r.sortedUnits ↔ ∃ pc ∈ r.active_pin_configs,
      pc.2.calibration.is_calibrated = true ∧ pc.2.calibration.physical_unit = u := by
  rw [DataRecorder.sortedUnits, (perm_sortStrings _).mem_iff, List.mem_dedup,
    List.mem_filterMap]
  simp

/-- There are no duplicate unit columns. -/
theorem nodup_sortedUnits (r : DataRecorder) : r.sortedUnits.Nodup :=
  (perm_sortStrings _).nodup_iff.mpr (List.nodup_dedup _)

/-- Reading a replicated list below its length. -/
theorem get?_replicate_of_lt {α : Type} (a : α) :
    ∀ (n i : ℕ), i < n → (List.replicate n a).get? i = some a := by
  intro n
  induction n with
  | zero => intro i h; exact absurd h (Nat.not_lt_zero i)
  | succ m ih =>
    intro i h
    cases i with
    | zero => rfl
    | succ j => exact ih j (Nat.lt_of_succ_lt_succ h)

/-- Unfolding lemma for one export row once the pin lookup succeeds. -/
theorem csvRow_eq_of_find (r : DataRecorder) (dp : DataPoint) (pc : ℤ × PinConfig)
    (hfind : r.active_pin_configs.find? (fun q => q.1 == dp.pin_number) = some pc) :
    r.csvRow dp = some (
      [fmtFixed 6 dp.timestamp, fmtFixed 3 dp.relative_time, toString dp.pin_number,
       pc.2.name, fmtFixed 6 dp.voltage] ++
      (if pc.2.calibration.is_calibrated then
        r.sortedUnits.map fun unit =>
          if unit = pc.2.calibration.physical_unit then fmtFixed 6 dp.calibrated_value
          else ""
       else if r.sortedUnits.isEmpty then [fmtFixed 6 dp.voltage]
       else List.replicate r.sortedUnits.length "")) := by
  rw [DataRecorder.csvRow, hfind, Option.map_some']
  cases hcal : pc.2.calibration.is_calibrated <;>
    cases hU : r.sortedUnits.isEmpty <;> simp [hcal, hU]

/-- C6: the exported table has the five fixed base columns followed by
exactly one calibrated-value column per distinct unit among the active
pins' enabled calibrations — a single generic calibrated column when no
active pin is calibrated; the unit columns are duplicate-free and drawn
from the active-pin configuration alone, every data row has exactly one
cell per header column, and in a row whose pin is uncalibrated or whose
unit differs from a unit column, that column's cell is empty. -/
theorem csv_schema (r : DataRecorder) (data_point : DataPoint) (row : List String)
    (pc : ℤ × PinConfig)
    (hfind : r.active_pin_configs.find? (fun q => q.1 == data_point.pin_number) = some pc)
    (hrow : r.csvRow data_point = some row) :
    r.csvHeaders.take 5 =
      ["Timestamp (Unix)", "Relative Time (s)", "Pin Number", "Sensor Name",
        "Voltage (V)"] ∧
    r.csvHeaders.drop 5 =
      (if r.sortedUnits.isEmpty then ["Calibrated Value"]
       else r.sortedUnits.map fun unit => "Calibrated Value (" ++ unit ++ ")") ∧
    r.sortedUnits.Nodup ∧
    (∀ u, u ∈ r.sortedUnits ↔ ∃ pc2 ∈ r.active_pin_configs,
      pc2.2.calibration.is_calibrated = true ∧ pc2.2.calibration.physical_unit = u) ∧
    row.length = r.csvHeaders.length ∧
    (∀ i u, r.sortedUnits.get? i = some u →
      pc.2.calibration.is_calibrated = false ∨ u ≠ pc.2.calibration.physical_unit →
      (row.drop 5).get? i = some "") := by
  have hmem : pc ∈ r.active_pin_configs := List.mem_of_find?_eq_some hfind
  have hheaders : r.csvHeaders =
      ["Timestamp (Unix)", "Relative Time (s)", "Pin Number", "Sensor Name",
        "Voltage (V)"] ++
      (if r.sortedUnits.isEmpty then ["Calibrated Value"]
       else r.sortedUnits.map fun unit => "Calibrated Value (" ++ unit ++ ")") := by
    simp only [DataRecorder.csvHeaders]
    cases hU : r.sortedUnits.isEmpty <;> simp [hU]
  rw [csvRow_eq_of_find r data_point pc hfind] at hrow
  replace hrow := Option.some.inj hrow
  refine ⟨by rw [hheaders]; rfl, by rw [hheaders]; rfl, nodup_sortedUnits r, mem_sortedUnits r,
    ?_, ?_⟩
  · rw [← hrow, hheaders]
    cases hcal : pc.2.calibration.is_calibrated
    · cases hU : r.sortedUnits.isEmpty <;> simp [hcal, hU]
    · have hin : pc.2.calibration.physical_unit ∈ r.sortedUnits :=
        (mem_sortedUnits r _).mpr ⟨pc, hmem, hcal, rfl⟩
      have hU : r.sortedUnits.isEmpty = false := by
        cases h2 : r.sortedUnits.isEmpty
        · rfl
        · rw [List.isEmpty_iff] at h2
          rw [h2] at hin
          cases hin
      simp [hcal, hU]
  · intro i u hgi hdiff
    cases hcal : pc.2.calibration.is_calibrated
    · cases hU : r.sortedUnits.isEmpty
      · simp only [hcal, hU] at hrow
        rw [← hrow]
        simp only [Bool.false_eq_true, if_false]
        show (List.replicate r.sortedUnits.length "").get? i = some ""
        obtain ⟨hlt, -⟩ := List.get?_eq_some.mp hgi
        exact get?_replicate_of_lt "" _ i hlt
      · rw [List.isEmpty_iff] at hU
        rw [hU] at hgi
        cases hgi
    · rw [← hrow]
      simp only [hcal, if_true]
      show (r.sortedUnits.map fun unit =>
        if unit = pc.2.calibration.physical_unit then
          fmtFixed 6 data_point.calibrated_value
        else "").get? i = some ""
      rw [List.get?_eq_getElem?] at hgi ⊢
      rw [List.getElem?_map, hgi, Option.map_some']
      have hne : u ≠ pc.2.calibration.physical_unit := by
        rcases hdiff with h | h
        · rw [hcal] at h
          cases h
        · exact h
      simp [hne]

/-- The first recorded sample of the uncalibrated pin 2. -/
def samplePin2 : DataPoint :=
  { timestamp := 101, relative_time := 1, pin_number := 2, voltage := 2,
    calibrated_value := 2 }

/-- Witness for C6: exporting the psi-calibrated pin 1 alongside the
uncalibrated pin 2 yields exactly one `Calibrated Value (psi)` column,
and the uncalibrated pin's row leaves that cell empty. -/
theorem csv_schema_witness :
    recRecorder.csvHeaders =
      ["Timestamp (Unix)", "Relative Time (s)", "Pin Number", "Sensor Name",
        "Voltage (V)", "Calibrated Value (psi)"] ∧
    (((recRecorder.csvRow samplePin2).getD []).drop 5).get? 0 = some "" ∧
    ((recRecorder.csvRow samplePin2).getD []).length = recRecorder.csvHeaders.length := by
  have h := csv_schema recRecorder samplePin2 ((recRecorder.csvRow samplePin2).getD [])
    (2, pinConfig2) rfl rfl
  exact ⟨rfl, h.2.2.2.2.2 0 "psi" rfl (Or.inl rfl), h.2.2.2.2.1⟩
